import Mathlib

/-!
Shallow embedding of the persona-chat repository (SGFIRE/chatbot):
the conversation/character persistence and prompt-assembly pipeline.

The repository has two near-duplicate variants:
  * `src/Main.py`  — builds prompts with no prior-turn context;
  * `src/Main2.py` — folds all of a user's stored turns into every prompt.

Database rows are modelled as Lean structures, the SQLAlchemy store as an
explicit `DB` state threaded through the operations.  Timestamps
(`datetime.utcnow`, rendered with `strftime`) are modelled as naturals
assigned by a store clock, rendered with `toString`: the rendering is
injective and order-preserving, which is all the formatted-transcript and
session-summary claims depend on.  The outbound HTTP call of
`chat_with_character` is modelled by an explicit `endpoint` function from
the posted prompt to the (already JSON-decoded) response; `uuid.uuid4()` is
modelled by an explicit `freshId` argument.
-/

namespace Chatbot

/-- Row of the `character` table (Main.py lines 31-35, identical in Main2.py):
integer primary key, unique non-null name, non-null description and
prompt template. -/
structure Character where
  id : Nat
  name : String
  description : String
  prompt_template : String
deriving DecidableEq, Repr

/-- Row of the `conversation` table (Main.py lines 37-46, identical in
Main2.py): `user_input` and `chat_id` are nullable, hence `Option`;
`timestamp` is the store-assigned creation time. -/
structure Conversation where
  id : Nat
  character_id : Nat
  user_input : Option String
  bot_response : String
  timestamp : Nat
  chat_id : Option String
  user_id : Int
deriving DecidableEq, Repr

/-- One generation candidate of the endpoint's JSON response body:
`parts` lists the texts of `candidate.content.parts`. -/
structure GenCandidate where
  parts : List String
deriving DecidableEq, Repr

/-- The generation endpoint's response as observed by the code:
`status_code`, the decoded `candidates` array (`none` when the JSON body
has no `candidates` key), and the raw body text (`response.text`). -/
structure GenResponse where
  status_code : Nat
  candidates : Option (List GenCandidate)
  body : String
deriving DecidableEq, Repr

/-- The persistence store: the two tables plus the id counters and the
timestamp clock that the store advances on each insert. -/
structure DB where
  characters : List Character
  conversations : List Conversation
  next_char_id : Nat
  next_conv_id : Nat
  clock : Nat
deriving DecidableEq, Repr

/-- The freshly created store. -/
def emptyDB : DB :=
  { characters := [], conversations := [], next_char_id := 1, next_conv_id := 1, clock := 0 }

/-- Python renders `None` inside an f-string as the text `None`; used for the
nullable `user_input` column. -/
def strOpt : Option String → String
  | none => "None"
  | some s => s

/-- `add_character` (Main.py lines 89-108, identical in Main2.py lines
91-110): check-then-insert keyed on the exact (case-sensitive) name; on a
hit, return the duplicate message and leave the store untouched; otherwise
append the new row and return the success message. -/
def add_character (name description prompt_template : String) (db : DB) : String × DB :=
  match db.characters.find? (fun c => c.name == name) with
  | some _ => ("Character \x27" ++ name ++ "\x27 already exists!", db)
  | none =>
      ("Character \x27" ++ name ++ "\x27 added successfully!\nDescription: " ++ description,
       { db with
         characters := db.characters ++
           [{ id := db.next_char_id, name := name, description := description,
              prompt_template := prompt_template }],
         next_char_id := db.next_char_id + 1 })

/-- Ascending-timestamp order used by every `order_by(Conversation.timestamp)`
query. -/
def tsLE (a b : Conversation) : Prop := a.timestamp ≤ b.timestamp

instance : DecidableRel tsLE := fun a b => inferInstanceAs (Decidable (a.timestamp ≤ b.timestamp))

instance : IsTotal Conversation tsLE := ⟨fun a b => Nat.le_total a.timestamp b.timestamp⟩

instance : IsTrans Conversation tsLE := ⟨fun _ _ _ h1 h2 => Nat.le_trans h1 h2⟩

/-- `Conversation.query.filter_by(...).order_by(Conversation.timestamp).all()`:
the matching rows in ascending timestamp order. -/
def sortByTimestamp (l : List Conversation) : List Conversation :=
  List.insertionSort tsLE l

/-- `if not chat_id: chat_id = str(uuid.uuid4())` (Main.py lines 127-128):
Python truthiness makes both `None` and the empty string fall back to the
freshly generated uuid, modelled by `freshId`. -/
def resolveChatId (chat_id : Option String) (freshId : String) : String :=
  match chat_id with
  | none => freshId
  | some s => if s = "" then freshId else s

/-- The prompt assembled by Main.py line 132:
`f"{prompt_template}\nUser: {user_input}\nBot:"` — no prior-turn context. -/
def full_prompt_main (prompt_template user_input : String) : String :=
  prompt_template ++ "\nUser: " ++ user_input ++ "\nBot:"

/-- One prior turn as rendered inside Main2.py line 134:
`f"User: {conv.user_input}\nBot: {conv.bot_response}"`. -/
def renderTurn (conv : Conversation) : String :=
  "User: " ++ strOpt conv.user_input ++ "\nBot: " ++ conv.bot_response

/-- Main2.py line 134: `" ".join([f"User: {conv.user_input}\nBot: {conv.bot_response}" ...])`. -/
def context_prompt (convs : List Conversation) : String :=
  String.intercalate " " (convs.map renderTurn)

/-- The prompt assembled by Main2.py line 136:
`f"{prompt_template}\n{context_prompt}\nUser: {user_input}\nBot:"`. -/
def full_prompt2 (prompt_template : String) (convs : List Conversation) (user_input : String) :
    String :=
  prompt_template ++ "\n" ++ context_prompt convs ++ "\nUser: " ++ user_input ++ "\nBot:"

/-- `response_data['candidates'][0]['content']['parts'][0]['text']`
(Main.py line 156): the first part text of the first candidate; `none`
models the `IndexError` the unguarded `[0]` raises when `parts` is empty,
which the surrounding `except` clause turns into the
"unexpected error" string. -/
def extract_bot_response (cs : List GenCandidate) : Option String :=
  match cs with
  | [] => none
  | c :: _ => c.parts.head?

/-- The successful insert of Main.py lines 158-166: append the new
conversation row; the store assigns `id` and `timestamp` and advances
its counters. -/
def appendTurn (db : DB) (character_id : Nat) (user_input bot_response cid : String)
    (user_id : Int) : DB :=
  { db with
    conversations := db.conversations ++
      [{ id := db.next_conv_id, character_id := character_id, user_input := some user_input,
         bot_response := bot_response, timestamp := db.clock, chat_id := some cid,
         user_id := user_id }],
    next_conv_id := db.next_conv_id + 1,
    clock := db.clock + 1 }

/-- `chat_with_character` of Main.py (lines 119-178).  The outbound POST is
modelled by applying `endpoint` to the assembled prompt; `freshId` models
`str(uuid.uuid4())`.  Returns the `(text, chat_id)` pair of the source
together with the resulting store state. -/
def chat_with_character (character_name user_input : String) (user_id : Int)
    (chat_id : Option String) (freshId : String) (endpoint : String → GenResponse)
    (db : DB) : (String × Option String) × DB :=
  match db.characters.find? (fun c => c.name == character_name) with
  | none => (("Character not found.", none), db)
  | some character =>
      let cid := resolveChatId chat_id freshId
      let response := endpoint (full_prompt_main character.prompt_template user_input)
      if response.status_code = 200 then
        match response.candidates with
        | some cs =>
            if 0 < cs.length then
              match extract_bot_response cs with
              | some bot_response =>
                  ((bot_response, some cid),
                   appendTurn db character.id user_input bot_response cid user_id)
              | none =>
                  (("An unexpected error occurred: list index out of range", some cid), db)
            else
              (("An error occurred while generating content: Unexpected response format.",
                some cid), db)
        | none =>
            (("An error occurred while generating content: Unexpected response format.",
              some cid), db)
      else
        (("An error occurred while generating content: " ++ toString response.status_code
            ++ " - " ++ response.body, some cid), db)

/-- `chat_with_character` of Main2.py (lines 121-179): identical to the
Main.py variant except that the prompt folds in all of the user's stored
turns in ascending timestamp order (Main2.py lines 133-136). -/
def chat_with_character2 (character_name user_input : String) (user_id : Int)
    (chat_id : Option String) (freshId : String) (endpoint : String → GenResponse)
    (db : DB) : (String × Option String) × DB :=
  match db.characters.find? (fun c => c.name == character_name) with
  | none => (("Character not found.", none), db)
  | some character =>
      let cid := resolveChatId chat_id freshId
      let previous := sortByTimestamp (db.conversations.filter (fun conv => conv.user_id == user_id))
      let response := endpoint (full_prompt2 character.prompt_template previous user_input)
      if response.status_code = 200 then
        match response.candidates with
        | some cs =>
            if 0 < cs.length then
              match extract_bot_response cs with
              | some bot_response =>
                  ((bot_response, some cid),
                   appendTurn db character.id user_input bot_response cid user_id)
              | none =>
                  (("An unexpected error occurred: list index out of range", some cid), db)
            else
              (("An error occurred while generating content: Unexpected response format.",
                some cid), db)
        | none =>
            (("An error occurred while generating content: Unexpected response format.",
              some cid), db)
      else
        (("An error occurred while generating content: " ++ toString response.status_code
            ++ " - " ++ response.body, some cid), db)

/-- `Character.query.get(character_id)` with the `"Unknown Character"`
fallback of Main.py lines 191-192. -/
def charNameOf (db : DB) (character_id : Nat) : String :=
  match db.characters.find? (fun ch => ch.id == character_id) with
  | some ch => ch.name
  | none => "Unknown Character"

/-- One transcript block of Main.py lines 196-200:
timestamp line, user line, bot line, blank separator. -/
def renderHistLine (conv : Conversation) : String :=
  "[" ++ toString conv.timestamp ++ "]\n" ++ "User: " ++ strOpt conv.user_input ++ "\nBot: "
    ++ conv.bot_response ++ "\n\n"

/-- `get_chat_history` of Main.py (lines 180-206): falsy chat id short-circuits;
otherwise load the session's turns in ascending timestamp order, return the
no-history sentinel when there are none, else fold the transcript onto the
header naming the first turn's character. -/
def get_chat_history (chat_id : String) (db : DB) : String :=
  if chat_id = "" then "No chat ID provided."
  else
    match sortByTimestamp (db.conversations.filter (fun c => c.chat_id == some chat_id)) with
    | [] => "No chat history found for this ID."
    | first :: rest =>
        (first :: rest).foldl (fun acc conv => acc ++ renderHistLine conv)
          ("Chat History with " ++ charNameOf db first.character_id ++ " (ID: " ++ chat_id
            ++ "):\n\n")

/-- One output row of `get_all_chat_ids` (Main.py lines 226-234):
chat id, character name, earliest timestamp, message count. -/
structure SummaryRow where
  chat_id : String
  character_name : String
  start_time : Nat
  message_count : Nat
deriving DecidableEq, Repr

/-- The inner join of `conversation` with `character` restricted to rows
with a non-null `chat_id` (Main.py lines 211-219): each surviving turn
contributes its chat id, its character's name and its timestamp.
Character ids are primary keys, hence unique, so the join partner is
`find?` by id. -/
def convJoin (chars : List Character) (conv : Conversation) : Option (String × String × Nat) :=
  match conv.chat_id with
  | none => none
  | some cid =>
      match chars.find? (fun ch => ch.id == conv.character_id) with
      | none => none
      | some ch => some (cid, ch.name, conv.timestamp)

/-- All joined turns of the store, in row order. -/
def joinedTurns (db : DB) : List (String × String × Nat) :=
  db.conversations.filterMap (convJoin db.characters)

/-- `min(Conversation.timestamp)` over a group. -/
def minStart : List Nat → Nat
  | [] => 0
  | x :: xs => xs.foldl Nat.min x

/-- The aggregate row for one `GROUP BY (chat_id, character_name)` key
(Main.py lines 212-221): count of the group's turns and minimum of their
timestamps. -/
def rowOfKey (joined : List (String × String × Nat)) (k : String × String) : SummaryRow :=
  { chat_id := k.1, character_name := k.2,
    start_time := minStart ((joined.filter (fun x => x.1 == k.1 && x.2.1 == k.2)).map
      (fun x => x.2.2)),
    message_count := (joined.filter (fun x => x.1 == k.1 && x.2.1 == k.2)).length }

/-- `ORDER BY min(timestamp) DESC` (Main.py lines 222-224). -/
def rowGE (a b : SummaryRow) : Prop := b.start_time ≤ a.start_time

instance : DecidableRel rowGE := fun a b => inferInstanceAs (Decidable (b.start_time ≤ a.start_time))

instance : IsTotal SummaryRow rowGE := ⟨fun a b => Nat.le_total b.start_time a.start_time⟩

instance : IsTrans SummaryRow rowGE := ⟨fun _ _ _ h1 h2 => Nat.le_trans h2 h1⟩

/-- The `GROUP BY` key of one joined turn: its chat id and character name
(Main.py lines 220-221). -/
def keyOf (x : String × String × Nat) : String × String := (x.1, x.2.1)

/-- The grouping key carried by one output row. -/
def rowKey (r : SummaryRow) : String × String := (r.chat_id, r.character_name)

/-- `get_all_chat_ids` of Main.py (lines 208-240): join, group by
`(chat_id, character_name)`, aggregate count and earliest timestamp per
group, order the rows by earliest timestamp descending. -/
def get_all_chat_ids (db : DB) : List SummaryRow :=
  List.insertionSort rowGE
    ((((joinedTurns db).map keyOf).dedup).map (rowOfKey (joinedTurns db)))

/-- The store states reachable from the empty store through the
character-creation operation alone. -/
inductive ReachableChars : DB → Prop where
  | init : ReachableChars emptyDB
  | step (name description prompt_template : String) (db : DB) :
      ReachableChars db → ReachableChars (add_character name description prompt_template db).2

/-- A generation-endpoint stub that echoes the posted prompt back as the
sole candidate text of a 200 response: running `chat_with_character`
against it makes the assembled prompt observable as the returned text. -/
def echoEndpoint : String → GenResponse := fun p =>
  { status_code := 200, candidates := some [{ parts := [p] }], body := "" }

/-- A store holding one character named `X` with prompt template
`You are X.` and no conversations; used for concrete test inputs. -/
def exDB1 : DB :=
  { characters := [⟨1, "X", "d", "You are X."⟩], conversations := [],
    next_char_id := 2, next_conv_id := 1, clock := 0 }

/-- A store in which the single session `s` holds one turn with character
`A` and one with character `B`; used for concrete test inputs. -/
def exDB5 : DB :=
  { characters := [⟨1, "A", "d", "t"⟩, ⟨2, "B", "d", "t"⟩],
    conversations :=
      [⟨1, 1, some "u1", "r1", 0, some "s", 7⟩, ⟨2, 2, some "u2", "r2", 1, some "s", 7⟩],
    next_char_id := 3, next_conv_id := 3, clock := 2 }

/-! Helper lemmas about strings, folds, minima and filtered joins. -/

/-- Merging two adjacent literals inside a right-nested append chain. -/
theorem strMerge (a b c : String) (h : a ++ b = c) (r : String) : a ++ (b ++ r) = c ++ r := by
  rw [← String.append_assoc, h]

/-- The separator-prefixed tail of a Python `sep.join`: everything after the
first element. -/
def tailJoin (s : String) : List String → String
  | [] => ""
  | b :: bs => s ++ b ++ tailJoin s bs

theorem intercalate_go_eq (s : String) :
    ∀ (l : List String) (acc : String), String.intercalate.go acc s l = acc ++ tailJoin s l
  | [], acc => by simp [String.intercalate.go, tailJoin, String.append_empty]
  | b :: bs, acc => by
      rw [show String.intercalate.go acc s (b :: bs)
            = String.intercalate.go (acc ++ s ++ b) s bs from rfl,
          intercalate_go_eq s bs (acc ++ s ++ b)]
      simp [tailJoin, String.append_assoc]

theorem intercalate_eq (s : String) (a : String) (l : List String) :
    String.intercalate s (a :: l) = a ++ tailJoin s l := by
  rw [show String.intercalate s (a :: l) = String.intercalate.go a s l from rfl,
    intercalate_go_eq]

theorem intercalate_cons (s : String) (a b : String) (l : List String) :
    String.intercalate s (a :: b :: l) = a ++ s ++ String.intercalate s (b :: l) := by
  rw [intercalate_eq, intercalate_eq, show tailJoin s (b :: l) = s ++ b ++ tailJoin s l from rfl]
  simp [String.append_assoc]

/-- Concatenation of rendered items, in list order. -/
def joinedStr (f : Conversation → String) : List Conversation → String
  | [] => ""
  | c :: cs => f c ++ joinedStr f cs

theorem foldl_append_eq (f : Conversation → String) :
    ∀ (l : List Conversation) (init : String),
      l.foldl (fun acc c => acc ++ f c) init = init ++ joinedStr f l
  | [], init => by simp [joinedStr, String.append_empty]
  | c :: cs, init => by
      rw [show (c :: cs).foldl (fun acc c => acc ++ f c) init
            = cs.foldl (fun acc c => acc ++ f c) (init ++ f c) from rfl,
          foldl_append_eq f cs (init ++ f c)]
      simp [joinedStr, String.append_assoc]

theorem foldl_min_le_init : ∀ (l : List Nat) (a : Nat), l.foldl Nat.min a ≤ a
  | [], a => Nat.le_refl a
  | x :: xs, a =>
      Nat.le_trans (foldl_min_le_init xs (Nat.min a x)) (Nat.min_le_left a x)

theorem foldl_min_le_mem : ∀ (l : List Nat) (a x : Nat), x ∈ l → l.foldl Nat.min a ≤ x
  | y :: ys, a, x, hx => by
      rcases List.mem_cons.mp hx with h | h
      · subst h
        exact Nat.le_trans (foldl_min_le_init ys (Nat.min a x)) (Nat.min_le_right a x)
      · exact foldl_min_le_mem ys (Nat.min a y) x h

theorem foldl_min_mem : ∀ (l : List Nat) (a : Nat), l.foldl Nat.min a = a ∨ l.foldl Nat.min a ∈ l
  | [], a => Or.inl rfl
  | x :: xs, a => by
      have hf : (x :: xs).foldl Nat.min a = xs.foldl Nat.min (Nat.min a x) := rfl
      rw [hf]
      rcases foldl_min_mem xs (Nat.min a x) with h | h
      · rw [h]
        have hdef : Nat.min a x = if a ≤ x then a else x := Nat.min_def
        rcases Nat.le_total a x with hle | hle
        · exact Or.inl (by rw [hdef]; split <;> omega)
        · refine Or.inr ?_
          have hx : Nat.min a x = x := by rw [hdef]; split <;> omega
          rw [hx]; exact List.mem_cons_self x xs
      · exact Or.inr (List.mem_cons_of_mem x h)

theorem minStart_le (l : List Nat) (x : Nat) (hx : x ∈ l) : minStart l ≤ x := by
  match l, hx with
  | y :: ys, hx =>
      rcases List.mem_cons.mp hx with h | h
      · subst h; exact foldl_min_le_init ys x
      · exact foldl_min_le_mem ys y x h

theorem minStart_mem (l : List Nat) (h : l ≠ []) : minStart l ∈ l := by
  match l with
  | y :: ys =>
      have hms : minStart (y :: ys) = ys.foldl Nat.min y := rfl
      rcases foldl_min_mem ys y with h0 | h0
      · rw [hms, h0]; exact List.mem_cons_self y ys
      · rw [hms]; exact List.mem_cons_of_mem y h0

/-- A stored turn belongs to the summary group of key `k` when its join row
exists and carries chat id `k.1` and character name `k.2`. -/
def joinsToKey (chars : List Character) (k : String × String) (conv : Conversation) : Bool :=
  match convJoin chars conv with
  | some x => x.1 == k.1 && x.2.1 == k.2
  | none => false

theorem length_filter_convJoin (chars : List Character) (k : String × String) :
    ∀ convs : List Conversation,
      ((convs.filterMap (convJoin chars)).filter (fun x => x.1 == k.1 && x.2.1 == k.2)).length
        = convs.countP (joinsToKey chars k)
  | [] => rfl
  | a :: l => by
      rw [List.filterMap_cons, List.countP_cons]
      cases hfa : convJoin chars a with
      | none => simp [joinsToKey, hfa, length_filter_convJoin chars k l]
      | some b =>
          cases hpb : (b.1 == k.1 && b.2.1 == k.2) with
          | false =>
              simp [List.filter_cons, joinsToKey, hfa, hpb, length_filter_convJoin chars k l]
          | true =>
              simp [List.filter_cons, joinsToKey, hfa, hpb, length_filter_convJoin chars k l]

/-! Claim C6. -/

/-- C6: for every name that exactly equals (case-sensitive) the name of an
already-stored character, `add_character` returns the duplicate-name
message and performs no write: the store after the call equals the store
before it. -/
theorem c6_duplicate_name_no_write (name description prompt_template : String) (db : DB)
    (h : ∃ c ∈ db.characters, c.name = name) :
    add_character name description prompt_template db
      = ("Character \x27" ++ name ++ "\x27 already exists!", db) := by
  obtain ⟨c, hc, hn⟩ := h
  have hsome : (db.characters.find? (fun c => c.name == name)).isSome :=
    List.find?_isSome.mpr ⟨c, hc, by simp [hn]⟩
  obtain ⟨c0, hc0⟩ := Option.isSome_iff_exists.mp hsome
  simp [add_character, hc0]

/-- C6 witness: creating a second `X` on a store already holding `X` is
rejected and leaves the store unchanged. -/
theorem c6_witness :
    add_character "X" "e" "f" exDB1 = ("Character \x27X\x27 already exists!", exDB1) :=
  c6_duplicate_name_no_write "X" "e" "f" exDB1 ⟨⟨1, "X", "d", "You are X."⟩, by decide, rfl⟩

/-! Claim C7. -/

/-- C7: for every character name absent from the store, both variants of
`chat_with_character` return the `Character not found.` message (a returned
value, not a raised fault) and leave the store — in particular the stored
turns — unchanged. -/
theorem c7_unknown_character_no_turn (character_name user_input : String) (user_id : Int)
    (chat_id : Option String) (freshId : String) (endpoint endpoint2 : String → GenResponse)
    (db : DB) (h : ∀ c ∈ db.characters, c.name ≠ character_name) :
    chat_with_character character_name user_input user_id chat_id freshId endpoint db
      = (("Character not found.", none), db) ∧
    chat_with_character2 character_name user_input user_id chat_id freshId endpoint2 db
      = (("Character not found.", none), db) := by
  have hfind : db.characters.find? (fun c => c.name == character_name) = none :=
    List.find?_eq_none.mpr (fun x hx => by simpa using h x hx)
  constructor <;> simp [chat_with_character, chat_with_character2, hfind]

/-- C7 witness: chatting with the unknown name `Y` on a store holding only
`X` returns the not-found message and the unchanged store. -/
theorem c7_witness :
    chat_with_character "Y" "hi" 1 none "f" echoEndpoint exDB1
      = (("Character not found.", none), exDB1) ∧
    chat_with_character2 "Y" "hi" 1 none "f" echoEndpoint exDB1
      = (("Character not found.", none), exDB1) :=
  c7_unknown_character_no_turn "Y" "hi" 1 none "f" echoEndpoint echoEndpoint exDB1 (by decide)

/-! Claim C10. -/

/-- C10: when chat is called with an unknown character name, the sessionId
component of the returned pair is `none` even when the caller supplied an
explicit session id, and no fresh identifier is generated for the failed
call: the result does not depend on the would-be generated uuid (modelled
by the `freshId` argument), in either variant. -/
theorem c10_unknown_character_session_none (character_name user_input : String) (user_id : Int)
    (sid : String) (f1 f2 : String) (endpoint : String → GenResponse) (db : DB)
    (h : ∀ c ∈ db.characters, c.name ≠ character_name) :
    (chat_with_character character_name user_input user_id (some sid) f1 endpoint db).1.2
      = none ∧
    chat_with_character character_name user_input user_id (some sid) f1 endpoint db
      = chat_with_character character_name user_input user_id (some sid) f2 endpoint db ∧
    (chat_with_character2 character_name user_input user_id (some sid) f1 endpoint db).1.2
      = none ∧
    chat_with_character2 character_name user_input user_id (some sid) f1 endpoint db
      = chat_with_character2 character_name user_input user_id (some sid) f2 endpoint db := by
  have hfind : db.characters.find? (fun c => c.name == character_name) = none :=
    List.find?_eq_none.mpr (fun x hx => by simpa using h x hx)
  refine ⟨?_, ?_, ?_, ?_⟩ <;> simp [chat_with_character, chat_with_character2, hfind]

/-- C10 witness: with the explicit session id `s`, chatting with the unknown
name `Y` still returns `none` as the session id, identically for two
different would-be fresh uuids. -/
theorem c10_witness :
    (chat_with_character "Y" "hi" 1 (some "s") "f1" echoEndpoint exDB1).1.2 = none ∧
    chat_with_character "Y" "hi" 1 (some "s") "f1" echoEndpoint exDB1
      = chat_with_character "Y" "hi" 1 (some "s") "f2" echoEndpoint exDB1 ∧
    (chat_with_character2 "Y" "hi" 1 (some "s") "f1" echoEndpoint exDB1).1.2 = none ∧
    chat_with_character2 "Y" "hi" 1 (some "s") "f1" echoEndpoint exDB1
      = chat_with_character2 "Y" "hi" 1 (some "s") "f2" echoEndpoint exDB1 :=
  c10_unknown_character_session_none "Y" "hi" 1 "s" "f1" "f2" echoEndpoint exDB1 (by decide)

/-! Claim C9. -/

/-- C9 counterexample: the claim asserts every store reachable through the
character-creation operation holds only characters with non-empty name,
description and prompt template; but `add_character` performs no
non-emptiness validation, so the store created by `add_character "" "" ""`
is reachable and holds a character whose three fields are all empty. -/
theorem c9_counterexample :
    ReachableChars (add_character "" "" "" emptyDB).2 ∧
    ∃ c ∈ (add_character "" "" "" emptyDB).2.characters,
      c.name = "" ∧ c.description = "" ∧ c.prompt_template = "" :=
  ⟨ReachableChars.step "" "" "" emptyDB ReachableChars.init,
   ⟨1, "", "", ""⟩, by decide, rfl, rfl, rfl⟩

/-- C9 (amended): in every store state reachable through the
character-creation operation, no two stored characters share a name; the
claimed non-emptiness of name, description and prompt template is not
enforced by the code (see the counterexample). -/
theorem c9_amended_unique_names (db : DB) (h : ReachableChars db) :
    (db.characters.map Character.name).Nodup := by
  induction h with
  | init => simp [emptyDB]
  | step name description prompt_template db hr ih =>
      cases hfind : db.characters.find? (fun c => c.name == name) with
      | some c => simpa [add_character, hfind] using ih
      | none =>
          have hnot : name ∉ db.characters.map Character.name := by
            intro hmem
            obtain ⟨c, hc, hcn⟩ := List.mem_map.mp hmem
            exact absurd (by simp [hcn] : (c.name == name) = true)
              (by simpa using List.find?_eq_none.mp hfind c hc)
          simp [add_character, hfind, List.map_append, List.nodup_append,
            List.disjoint_singleton, ih, hnot]

/-- C9 witness: the store reached by adding `A` then `B` has pairwise
distinct character names. -/
theorem c9_witness :
    (((add_character "B" "e" "q" (add_character "A" "d" "p" emptyDB).2).2).characters.map
        Character.name).Nodup :=
  c9_amended_unique_names _
    (ReachableChars.step "B" "e" "q" _ (ReachableChars.step "A" "d" "p" emptyDB
      ReachableChars.init))

/-! Claim C1. -/

/-- C1 counterexample: the claim asserts that with no prior turns the prompt
sent to the endpoint is exactly template, one newline, then the new-turn
line.  In the Main2.py variant the empty context block still contributes
its surrounding separator: observed through the echoing endpoint stub, the
prompt for template `You are X.` and message `hi` is
`You are X.\n\nUser: hi\nBot:` — an extra newline — and not the claimed
`You are X.\nUser: hi\nBot:`. -/
theorem c1_counterexample :
    (chat_with_character2 "X" "hi" 1 (some "s") "fresh" echoEndpoint exDB1).1.1
      = "You are X.\n\nUser: hi\nBot:" ∧
    (chat_with_character2 "X" "hi" 1 (some "s") "fresh" echoEndpoint exDB1).1.1
      ≠ "You are X.\nUser: hi\nBot:" := by
  constructor <;> decide

/-- C1 (amended): with no prior turns, the prompt sent to the generation
endpoint (observed through the echoing endpoint stub) is
template ++ newline ++ the new-turn line in the Main.py variant exactly as
claimed; in the Main2.py variant the empty context block is not omitted
and one extra newline separates the template from the new-turn line. -/
theorem c1_amended_prompt_empty_context (character_name user_input : String) (user_id : Int)
    (chat_id : Option String) (freshId : String) (db : DB) (character : Character)
    (hfind : db.characters.find? (fun c => c.name == character_name) = some character)
    (hnoprior : db.conversations.filter (fun conv => conv.user_id == user_id) = []) :
    (chat_with_character character_name user_input user_id chat_id freshId echoEndpoint db).1.1
      = character.prompt_template ++ "\nUser: " ++ user_input ++ "\nBot:" ∧
    (chat_with_character2 character_name user_input user_id chat_id freshId echoEndpoint db).1.1
      = character.prompt_template ++ "\n\nUser: " ++ user_input ++ "\nBot:" := by
  constructor
  · simp [chat_with_character, hfind, echoEndpoint, extract_bot_response, full_prompt_main]
  · have h2 : sortByTimestamp (db.conversations.filter (fun conv => conv.user_id == user_id))
        = [] := by rw [hnoprior]; rfl
    have h3 : (chat_with_character2 character_name user_input user_id chat_id freshId
          echoEndpoint db).1.1
        = full_prompt2 character.prompt_template [] user_input := by
      simp [chat_with_character2, hfind, echoEndpoint, extract_bot_response, h2]
    rw [h3, full_prompt2]
    show character.prompt_template ++ "\n" ++ "" ++ "\nUser: " ++ user_input ++ "\nBot:" = _
    rw [String.append_empty]
    rw [String.append_assoc character.prompt_template "\n" "\nUser: "]
    rfl

/-- C1 witness: on a store whose only character is `X` with template
`You are X.` and with no stored turns, the two variants send
`You are X.\nUser: hi\nBot:` and `You are X.\n\nUser: hi\nBot:`
respectively. -/
theorem c1_witness :
    (chat_with_character "X" "hi" 1 (some "s") "fresh" echoEndpoint exDB1).1.1
      = "You are X." ++ "\nUser: " ++ "hi" ++ "\nBot:" ∧
    (chat_with_character2 "X" "hi" 1 (some "s") "fresh" echoEndpoint exDB1).1.1
      = "You are X." ++ "\n\nUser: " ++ "hi" ++ "\nBot:" :=
  c1_amended_prompt_empty_context "X" "hi" 1 (some "s") "fresh" exDB1
    ⟨1, "X", "d", "You are X."⟩ rfl rfl

/-! Claim C2. -/

/-- A store with one character `X` (template `T`) and a single stored turn
of user 1: user input `a`, bot response `b`; used for concrete test
inputs. -/
def exDB2 : DB :=
  { characters := [⟨1, "X", "d", "T"⟩],
    conversations := [⟨1, 1, some "a", "b", 0, some "s", 1⟩],
    next_char_id := 2, next_conv_id := 2, clock := 1 }

/-- C2: with exactly one prior turn (user input `a`, bot response `b`)
stored for the user and new message `c`, the prompt sent by the Main2.py
variant (observed through the echoing endpoint stub) is exactly
template ++ `\nUser: a\nBot: b\nUser: c\nBot:`; and with several prior
turns the rendered `User: ...\nBot: ...` fragments are joined by a single
space in the given order. -/
theorem c2_prompt_with_context (character_name c : String) (user_id : Int)
    (chat_id : Option String) (freshId : String) (db : DB) (character : Character)
    (conv : Conversation) (a b : String)
    (hfind : db.characters.find? (fun ch => ch.name == character_name) = some character)
    (hconvs : db.conversations = [conv])
    (huid : conv.user_id = user_id) (hui : conv.user_input = some a)
    (hbr : conv.bot_response = b) :
    (chat_with_character2 character_name c user_id chat_id freshId echoEndpoint db).1.1
      = character.prompt_template ++ "\nUser: " ++ a ++ "\nBot: " ++ b ++ "\nUser: " ++ c
          ++ "\nBot:" ∧
    ∀ (t : Conversation) (ts : List Conversation), ts ≠ [] →
      context_prompt (t :: ts) = renderTurn t ++ " " ++ context_prompt ts := by
  constructor
  · have hfilter : db.conversations.filter (fun cv => cv.user_id == user_id) = [conv] := by
      simp [hconvs, List.filter_cons, huid]
    have hsort : sortByTimestamp (db.conversations.filter (fun cv => cv.user_id == user_id))
        = [conv] := by
      rw [hfilter]; rfl
    have h3 : (chat_with_character2 character_name c user_id chat_id freshId echoEndpoint
          db).1.1
        = full_prompt2 character.prompt_template [conv] c := by
      simp [chat_with_character2, hfind, echoEndpoint, extract_bot_response, hsort]
    rw [h3, full_prompt2, context_prompt]
    have hctx : String.intercalate " " ([conv].map renderTurn) = renderTurn conv := by
      rw [List.map_singleton, intercalate_eq]
      show renderTurn conv ++ "" = renderTurn conv
      exact String.append_empty _
    rw [hctx, renderTurn, hui, hbr]
    show character.prompt_template ++ "\n" ++ ("User: " ++ a ++ "\nBot: " ++ b)
        ++ "\nUser: " ++ c ++ "\nBot:" = _
    simp only [String.append_assoc]
    rw [strMerge "\n" "User: " "\nUser: " rfl]
  · intro t ts hts
    obtain ⟨t2, ts2, rfl⟩ := List.exists_cons_of_ne_nil hts
    rw [context_prompt, context_prompt, List.map_cons, List.map_cons, intercalate_cons]

/-- C2 witness: on a store holding exactly the prior turn (`a`, `b`) for
user 1 and character template `T`, the Main2.py variant sends
`T\nUser: a\nBot: b\nUser: c\nBot:`; and two turns render joined by one
space. -/
theorem c2_witness :
    (chat_with_character2 "X" "c" 1 (some "s") "f" echoEndpoint exDB2).1.1
      = "T" ++ "\nUser: " ++ "a" ++ "\nBot: " ++ "b" ++ "\nUser: " ++ "c" ++ "\nBot:" ∧
    context_prompt [⟨1, 1, some "a", "b", 0, some "s", 1⟩, ⟨2, 1, some "u", "v", 1, some "s", 1⟩]
      = renderTurn ⟨1, 1, some "a", "b", 0, some "s", 1⟩ ++ " "
          ++ context_prompt [⟨2, 1, some "u", "v", 1, some "s", 1⟩] := by
  have h := c2_prompt_with_context "X" "c" 1 (some "s") "f" exDB2 ⟨1, "X", "d", "T"⟩
    ⟨1, 1, some "a", "b", 0, some "s", 1⟩ "a" "b" rfl rfl rfl rfl rfl
  exact ⟨h.1, h.2 ⟨1, 1, some "a", "b", 0, some "s", 1⟩ [⟨2, 1, some "u", "v", 1, some "s", 1⟩]
    (by simp)⟩

/-! Claim C3. -/

/-- A 2xx HTTP status in the claim's sense. -/
def is2xx (n : Nat) : Prop := 200 ≤ n ∧ n < 300

instance (n : Nat) : Decidable (is2xx n) :=
  inferInstanceAs (Decidable (200 ≤ n ∧ n < 300))

/-- C3 counterexample: the claim asserts any 2xx response with an
extractable candidate yields that candidate's text, but the code tests
`status_code == 200` exactly: a 201 response carrying the candidate text
`Hi` is routed to the status-error branch and returns the error string
instead of `Hi`. -/
theorem c3_counterexample :
    is2xx 201 ∧
    (chat_with_character "X" "hi" 1 (some "s") "f"
        (fun _ => ⟨201, some [⟨["Hi"]⟩], "B"⟩) exDB1).1.1
      = "An error occurred while generating content: 201 - B" ∧
    (chat_with_character "X" "hi" 1 (some "s") "f"
        (fun _ => ⟨201, some [⟨["Hi"]⟩], "B"⟩) exDB1).1.1 ≠ "Hi" := by
  refine ⟨by decide, by decide, by decide⟩

/-- C3 (amended): for a response with status exactly 200 whose body holds a
first candidate with extractable text, both chat variants return that
text; for any status other than 200 — including other 2xx codes — they
return the error string carrying the status code and the body; and for a
200 response lacking candidates (key absent or empty array) they return
the distinct unexpected-response-format error rather than any text. -/
theorem c3_amended_generation_handling (character_name user_input : String) (user_id : Int)
    (chat_id : Option String) (freshId : String) (resp : GenResponse) (db : DB)
    (character : Character)
    (hfind : db.characters.find? (fun ch => ch.name == character_name) = some character) :
    (∀ cand cands t rest, resp.status_code = 200 → resp.candidates = some (cand :: cands) →
        cand.parts = t :: rest →
        (chat_with_character character_name user_input user_id chat_id freshId
            (fun _ => resp) db).1.1 = t ∧
        (chat_with_character2 character_name user_input user_id chat_id freshId
            (fun _ => resp) db).1.1 = t) ∧
    (resp.status_code ≠ 200 →
        (chat_with_character character_name user_input user_id chat_id freshId
            (fun _ => resp) db).1.1
          = "An error occurred while generating content: " ++ toString resp.status_code
              ++ " - " ++ resp.body ∧
        (chat_with_character2 character_name user_input user_id chat_id freshId
            (fun _ => resp) db).1.1
          = "An error occurred while generating content: " ++ toString resp.status_code
              ++ " - " ++ resp.body) ∧
    (resp.status_code = 200 → resp.candidates = none ∨ resp.candidates = some [] →
        (chat_with_character character_name user_input user_id chat_id freshId
            (fun _ => resp) db).1.1
          = "An error occurred while generating content: Unexpected response format." ∧
        (chat_with_character2 character_name user_input user_id chat_id freshId
            (fun _ => resp) db).1.1
          = "An error occurred while generating content: Unexpected response format.") := by
  refine ⟨?_, ?_, ?_⟩
  · intro cand cands t rest hst hcand hparts
    constructor <;>
      simp [chat_with_character, chat_with_character2, hfind, hst, hcand,
        extract_bot_response, hparts]
  · intro hst
    constructor <;>
      simp [chat_with_character, chat_with_character2, hfind, hst]
  · intro hst hcand
    rcases hcand with hcand | hcand <;> constructor <;>
      simp [chat_with_character, chat_with_character2, hfind, hst, hcand]

/-- C3 witness: a stubbed 200 response with candidate text `Ahoy!` makes
both chat variants return `Ahoy!`. -/
theorem c3_witness :
    (chat_with_character "X" "hi" 1 (some "s") "f"
        (fun _ => ⟨200, some [⟨["Ahoy!"]⟩], ""⟩) exDB1).1.1 = "Ahoy!" ∧
    (chat_with_character2 "X" "hi" 1 (some "s") "f"
        (fun _ => ⟨200, some [⟨["Ahoy!"]⟩], ""⟩) exDB1).1.1 = "Ahoy!" :=
  (c3_amended_generation_handling "X" "hi" 1 (some "s") "f" ⟨200, some [⟨["Ahoy!"]⟩], ""⟩
      exDB1 ⟨1, "X", "d", "You are X."⟩ rfl).1
    ⟨["Ahoy!"]⟩ [] "Ahoy!" [] rfl rfl rfl

/-! Claim C4. -/

/-- C4: when the generation endpoint fails — non-2xx status, or a 2xx body
without candidates (any status in 200-299, key absent or empty array) —
neither chat variant persists a turn: the store after the call is exactly
the store before it; the returned text is one of the two human-readable
error strings, and it is paired with the provided-or-freshly-generated
session id. -/
theorem c4_no_persist_on_failure (character_name user_input : String) (user_id : Int)
    (chat_id : Option String) (freshId : String) (resp : GenResponse) (db : DB)
    (character : Character)
    (hfind : db.characters.find? (fun ch => ch.name == character_name) = some character)
    (hfail : ¬ is2xx resp.status_code ∨
        (is2xx resp.status_code ∧ (resp.candidates = none ∨ resp.candidates = some []))) :
    ((chat_with_character character_name user_input user_id chat_id freshId
        (fun _ => resp) db).2 = db ∧
     (chat_with_character character_name user_input user_id chat_id freshId
        (fun _ => resp) db).1.2 = some (resolveChatId chat_id freshId) ∧
     ((chat_with_character character_name user_input user_id chat_id freshId
          (fun _ => resp) db).1.1
        = "An error occurred while generating content: Unexpected response format." ∨
      (chat_with_character character_name user_input user_id chat_id freshId
          (fun _ => resp) db).1.1
        = "An error occurred while generating content: " ++ toString resp.status_code
            ++ " - " ++ resp.body)) ∧
    ((chat_with_character2 character_name user_input user_id chat_id freshId
        (fun _ => resp) db).2 = db ∧
     (chat_with_character2 character_name user_input user_id chat_id freshId
        (fun _ => resp) db).1.2 = some (resolveChatId chat_id freshId) ∧
     ((chat_with_character2 character_name user_input user_id chat_id freshId
          (fun _ => resp) db).1.1
        = "An error occurred while generating content: Unexpected response format." ∨
      (chat_with_character2 character_name user_input user_id chat_id freshId
          (fun _ => resp) db).1.1
        = "An error occurred while generating content: " ++ toString resp.status_code
            ++ " - " ++ resp.body)) := by
  have hcases : resp.status_code ≠ 200 ∨
      (resp.status_code = 200 ∧ (resp.candidates = none ∨ resp.candidates = some [])) := by
    rcases hfail with hfail | ⟨h2xx, hcand⟩
    · exact Or.inl (fun heq => hfail (by rw [heq]; exact ⟨Nat.le_refl 200, by omega⟩))
    · by_cases heq : resp.status_code = 200
      · exact Or.inr ⟨heq, hcand⟩
      · exact Or.inl heq
  rcases hcases with hne | ⟨hst, hcand⟩
  · constructor <;>
      refine ⟨?_, ?_, Or.inr ?_⟩ <;>
      simp [chat_with_character, chat_with_character2, hfind, hne]
  · rcases hcand with hcand | hcand <;>
      constructor <;>
      refine ⟨?_, ?_, Or.inl ?_⟩ <;>
      simp [chat_with_character, chat_with_character2, hfind, hst, hcand]

/-- C4 witness: a stubbed candidate-less 204 response — a 2xx body without
candidates — leaves the store unchanged, pairs the error text with the
supplied session id `s`, and the text is one of the two error strings, in
both variants. -/
theorem c4_witness :
    ((chat_with_character "X" "hi" 1 (some "s") "f"
        (fun _ => ⟨204, none, "nc"⟩) exDB1).2 = exDB1 ∧
     (chat_with_character "X" "hi" 1 (some "s") "f"
        (fun _ => ⟨204, none, "nc"⟩) exDB1).1.2 = some (resolveChatId (some "s") "f") ∧
     ((chat_with_character "X" "hi" 1 (some "s") "f"
          (fun _ => ⟨204, none, "nc"⟩) exDB1).1.1
        = "An error occurred while generating content: Unexpected response format." ∨
      (chat_with_character "X" "hi" 1 (some "s") "f"
          (fun _ => ⟨204, none, "nc"⟩) exDB1).1.1
        = "An error occurred while generating content: " ++ toString 204 ++ " - " ++ "nc")) ∧
    ((chat_with_character2 "X" "hi" 1 (some "s") "f"
        (fun _ => ⟨204, none, "nc"⟩) exDB1).2 = exDB1 ∧
     (chat_with_character2 "X" "hi" 1 (some "s") "f"
        (fun _ => ⟨204, none, "nc"⟩) exDB1).1.2 = some (resolveChatId (some "s") "f") ∧
     ((chat_with_character2 "X" "hi" 1 (some "s") "f"
          (fun _ => ⟨204, none, "nc"⟩) exDB1).1.1
        = "An error occurred while generating content: Unexpected response format." ∨
      (chat_with_character2 "X" "hi" 1 (some "s") "f"
          (fun _ => ⟨204, none, "nc"⟩) exDB1).1.1
        = "An error occurred while generating content: " ++ toString 204 ++ " - " ++ "nc")) :=
  c4_no_persist_on_failure "X" "hi" 1 (some "s") "f" ⟨204, none, "nc"⟩ exDB1
    ⟨1, "X", "d", "You are X."⟩ rfl (Or.inr ⟨by decide, Or.inl rfl⟩)

/-! Claim C8. -/

/-- C8 counterexample: the empty string is a session id with no stored
turns, yet `get_chat_history` answers it with the distinct
`No chat ID provided.` sentinel, not the claimed no-history sentinel. -/
theorem c8_counterexample :
    get_chat_history "" emptyDB = "No chat ID provided." ∧
    get_chat_history "" emptyDB ≠ "No chat history found for this ID." := by
  constructor <;> decide

/-- C8 (amended): for every non-empty session id with no stored turns,
history returns the `No chat history found for this ID.` sentinel (the
empty session id instead gets the `No chat ID provided.` sentinel, see the
counterexample); for every non-empty session id with at least one stored
turn, history returns the transcript: the header naming the character of
the session's first turn followed by each turn's timestamp, user and bot
lines, the rendered turns being a permutation of exactly the session's
stored turns arranged in ascending timestamp order. -/
theorem c8_amended_history (chat_id : String) (db : DB) (h : chat_id ≠ "") :
    (db.conversations.filter (fun c => c.chat_id == some chat_id) = [] →
        get_chat_history chat_id db = "No chat history found for this ID.") ∧
    (∀ first rest,
        sortByTimestamp (db.conversations.filter (fun c => c.chat_id == some chat_id))
          = first :: rest →
        List.Pairwise tsLE (first :: rest) ∧
        (first :: rest).Perm (db.conversations.filter (fun c => c.chat_id == some chat_id)) ∧
        get_chat_history chat_id db
          = "Chat History with " ++ charNameOf db first.character_id ++ " (ID: " ++ chat_id
              ++ "):\n\n" ++ joinedStr renderHistLine (first :: rest)) := by
  constructor
  · intro hnil
    unfold get_chat_history
    rw [if_neg h, hnil]
    rfl
  · intro first rest hsort
    refine ⟨?_, ?_, ?_⟩
    · have hs := List.sorted_insertionSort tsLE
        (db.conversations.filter (fun c => c.chat_id == some chat_id))
      rw [show List.insertionSort tsLE
            (db.conversations.filter (fun c => c.chat_id == some chat_id))
          = sortByTimestamp (db.conversations.filter (fun c => c.chat_id == some chat_id))
          from rfl, hsort] at hs
      exact hs
    · have hp := List.perm_insertionSort tsLE
        (db.conversations.filter (fun c => c.chat_id == some chat_id))
      rw [show List.insertionSort tsLE
            (db.conversations.filter (fun c => c.chat_id == some chat_id))
          = sortByTimestamp (db.conversations.filter (fun c => c.chat_id == some chat_id))
          from rfl, hsort] at hp
      exact hp
    · unfold get_chat_history
      rw [if_neg h, hsort]
      show List.foldl (fun acc conv => acc ++ renderHistLine conv)
          ("Chat History with " ++ charNameOf db first.character_id ++ " (ID: " ++ chat_id
            ++ "):\n\n") (first :: rest) = _
      rw [foldl_append_eq]

/-- C8 witness: on the store whose session `s` holds the two turns of
`exDB5`, history returns the full transcript in ascending timestamp
order, and the no-turn session id `z` gets the no-history sentinel. -/
theorem c8_witness :
    get_chat_history "s" exDB5
      = "Chat History with A (ID: s):\n\n[0]\nUser: u1\nBot: r1\n\n[1]\nUser: u2\nBot: r2\n\n" ∧
    get_chat_history "z" exDB5 = "No chat history found for this ID." := by
  have h1 := ((c8_amended_history "s" exDB5 (by decide)).2
    ⟨1, 1, some "u1", "r1", 0, some "s", 7⟩ [⟨2, 2, some "u2", "r2", 1, some "s", 7⟩] rfl).2.2
  have h2 := (c8_amended_history "z" exDB5 (by decide)).1 rfl
  exact ⟨h1.trans (by decide), h2⟩

/-! Claim C5. -/

/-- C5 counterexample: the claim asserts exactly one summary row per
distinct non-null session id, but the code groups by
`(chat_id, character_name)`: in the store `exDB5` the single session `s`
holds turns of two different characters and `get_all_chat_ids` emits two
rows both carrying session id `s`. -/
theorem c5_counterexample :
    (get_all_chat_ids exDB5).map (fun r => r.chat_id) = ["s", "s"] ∧
    (get_all_chat_ids exDB5).length = 2 := by
  constructor <;> decide

/-- C5 (amended): `get_all_chat_ids` returns exactly one row per distinct
(non-null session id, character name) pair occurring among the joined
stored turns — not per session id alone; each row's `message_count` is the
number of stored turns joining to that pair, its `start_time` is the
timestamp of an earliest such turn and is a lower bound of all of them,
and the rows are ordered by `start_time` descending. -/
theorem c5_amended_summary (db : DB) :
    List.Pairwise rowGE (get_all_chat_ids db) ∧
    ((get_all_chat_ids db).map rowKey).Nodup ∧
    (∀ k, k ∈ (get_all_chat_ids db).map rowKey ↔ k ∈ (joinedTurns db).map keyOf) ∧
    (∀ r ∈ get_all_chat_ids db,
        r.message_count
          = db.conversations.countP (joinsToKey db.characters (r.chat_id, r.character_name)) ∧
        (∃ conv ∈ db.conversations,
            convJoin db.characters conv = some (r.chat_id, r.character_name, r.start_time)) ∧
        (∀ conv ∈ db.conversations, ∀ t,
            convJoin db.characters conv = some (r.chat_id, r.character_name, t) →
            r.start_time ≤ t)) := by
  have hperm : (get_all_chat_ids db).Perm
      ((((joinedTurns db).map keyOf).dedup).map (rowOfKey (joinedTurns db))) :=
    List.perm_insertionSort rowGE _
  have hkeys : ((((joinedTurns db).map keyOf).dedup).map (rowOfKey (joinedTurns db))).map rowKey
      = ((joinedTurns db).map keyOf).dedup := by
    rw [List.map_map]
    exact List.map_id _
  have hmaprk : ((get_all_chat_ids db).map rowKey).Perm (((joinedTurns db).map keyOf).dedup) := by
    have h := hperm.map rowKey
    rwa [hkeys] at h
  refine ⟨List.sorted_insertionSort rowGE _, hmaprk.nodup_iff.mpr (List.nodup_dedup _),
    fun k => by rw [hmaprk.mem_iff, List.mem_dedup], ?_⟩
  intro r hr
  obtain ⟨k, hk, hrk⟩ := List.mem_map.mp (hperm.mem_iff.mp hr)
  subst hrk
  have hkj : k ∈ (joinedTurns db).map keyOf := List.mem_dedup.mp hk
  obtain ⟨x0, hx0, hx0k⟩ := List.mem_map.mp hkj
  have hx0g : x0 ∈ (joinedTurns db).filter (fun x => x.1 == k.1 && x.2.1 == k.2) := by
    rw [List.mem_filter]
    refine ⟨hx0, ?_⟩
    rw [← hx0k]
    simp [keyOf]
  have hts : x0.2.2
      ∈ ((joinedTurns db).filter (fun x => x.1 == k.1 && x.2.1 == k.2)).map (fun x => x.2.2) :=
    List.mem_map.mpr ⟨x0, hx0g, rfl⟩
  have hne : ((joinedTurns db).filter (fun x => x.1 == k.1 && x.2.1 == k.2)).map
      (fun x => x.2.2) ≠ [] := by
    intro hnil
    rw [hnil] at hts
    exact absurd hts (List.not_mem_nil _)
  refine ⟨?_, ?_, ?_⟩
  · show ((joinedTurns db).filter (fun x => x.1 == k.1 && x.2.1 == k.2)).length
      = db.conversations.countP (joinsToKey db.characters k)
    simp only [joinedTurns]
    exact length_filter_convJoin db.characters k db.conversations
  · have hmin := minStart_mem _ hne
    obtain ⟨y, hyg, hyt⟩ := List.mem_map.mp hmin
    obtain ⟨hyj, hpy⟩ := List.mem_filter.mp hyg
    have hy1 : y.1 = k.1 := by
      have := (Bool.and_eq_true _ _).mp hpy
      exact beq_iff_eq.mp this.1
    have hy2 : y.2.1 = k.2 := by
      have := (Bool.and_eq_true _ _).mp hpy
      exact beq_iff_eq.mp this.2
    obtain ⟨conv, hconv, hcj⟩ := List.mem_filterMap.mp hyj
    refine ⟨conv, hconv, ?_⟩
    show convJoin db.characters conv = some (k.1, k.2, minStart _)
    rw [hcj, ← hyt, ← hy1, ← hy2]
  · intro conv hconv t hcj
    have hxj : (k.1, k.2, t) ∈ joinedTurns db := List.mem_filterMap.mpr ⟨conv, hconv, hcj⟩
    have hxg : (k.1, k.2, t)
        ∈ (joinedTurns db).filter (fun x => x.1 == k.1 && x.2.1 == k.2) := by
      rw [List.mem_filter]
      exact ⟨hxj, by simp⟩
    have htmem : t ∈ ((joinedTurns db).filter (fun x => x.1 == k.1 && x.2.1 == k.2)).map
        (fun x => x.2.2) := List.mem_map.mpr ⟨(k.1, k.2, t), hxg, rfl⟩
    exact minStart_le _ _ htmem

/-- C5 witness: on the store `exDB5`, the rows are descending in
`start_time`, and the row for the pair (`s`, `B`) counts exactly the one
stored turn joining to that pair. -/
theorem c5_witness :
    List.Pairwise rowGE (get_all_chat_ids exDB5) ∧
    (⟨"s", "B", 1, 1⟩ : SummaryRow).message_count
      = exDB5.conversations.countP (joinsToKey exDB5.characters ("s", "B")) :=
  ⟨(c5_amended_summary exDB5).1,
   ((c5_amended_summary exDB5).2.2.2 ⟨"s", "B", 1, 1⟩ (by decide)).1⟩

end Chatbot
